import Mathlib

/-!
Verification of `vrc-osc-manager` (src/main.rs, src/config.rs).

The repository is a tokio-based supervisor that starts and stops a group of
plugin tasks in reaction to two event sources: an activity monitor that polls
whether the VRChat process is running, and reload requests coming from the
tray icon.  This file gives a shallow embedding of the parts of the code the
claims are about:

* the configuration data model and `load_config` (src/config.rs), with the
  file system modelled as the optional content of the single configuration
  file and the external `toml` serializer/deserializer as explicit function
  parameters;
* `VrChatActivity::check` / `VrChatActivity::run` (src/main.rs, lines 36-74),
  with the process oracle modelled as the finite list of boolean samples the
  loop observes before being cancelled;
* the `Launcher::wait` event loop (src/main.rs, lines 129-180), modelled as a
  step function on the loop state that also emits the ordered list of
  externally visible actions (tray updates, partial shutdowns, group starts)
  performed while handling one event, so that sequencing claims are about the
  order of that trace;
* the `run`-under-cancellation wrapper shared by `VrChatActivity::run` and
  `Launcher::run` (src/main.rs, lines 60-74 and 182-190).

External-collaborator failures that the code merely propagates with `?`
(`tray.set_running`, `perform_partial_shutdown`, channel send failures) are
modelled as succeeding: the claims under study concern the success path and
the error returned by `load_config`, which is kept explicit.
-/

/-- Propositional equality on `Except` values is decidable when it is on the
error and value types; needed so that concrete runs of the model can be
checked with `decide`. -/
instance exceptDecidableEq {α β : Type} [DecidableEq α] [DecidableEq β] :
    DecidableEq (Except α β) := fun a b =>
  match a, b with
  | Except.ok x, Except.ok y =>
    if h : x = y then isTrue (by rw [h]) else isFalse (by intro hc; cases hc; exact h rfl)
  | Except.error x, Except.error y =>
    if h : x = y then isTrue (by rw [h]) else isFalse (by intro hc; cases hc; exact h rfl)
  | Except.ok _, Except.error _ => isFalse (by intro hc; cases hc)
  | Except.error _, Except.ok _ => isFalse (by intro hc; cases hc)

/-- Transport port section of the configuration (`OscConfig`, src/config.rs
lines 8-13).  Rust `u16` ports are modelled as `Nat`; no claim involves
overflow. -/
structure OscConfig where
  send_port : Nat
  receive_port : Nat
deriving DecidableEq, Repr

/-- `OscConfig::default` (src/config.rs lines 15-22). -/
def OscConfig.default : OscConfig :=
  { send_port := 9000, receive_port := 9001 }

/-- The configuration (`Config`, src/config.rs lines 47-54).  The
feature-gated `pishock` section is omitted: no claim mentions it and it does
not influence `load_config`'s control flow. -/
structure Config where
  osc : OscConfig
deriving DecidableEq, Repr

/-- `Config::default` (derived `Default`, src/config.rs line 47). -/
def Config.default : Config :=
  { osc := OscConfig.default }

/-- `load_config` (src/config.rs lines 56-81).  The file system is the
optional content of `osc-manager.toml`; the external `toml` crate is passed
in as the serializer `toStr` and the deserializer `fromStr`.  Returns the
result of the call together with the file content after the call.  If the
file is absent, the default configuration is created, written out, and
returned; otherwise the file is opened read-only, read, and parsed, a parse
error propagating via `?`. -/
def load_config (toStr : Config → String)
    (fromStr : String → Except String Config)
    (file : Option String) : Except String Config × Option String :=
  match file with
  | none =>
    let config := Config.default
    (Except.ok config, some (toStr config))
  | some contents =>
    match fromStr contents with
    | Except.ok config => (Except.ok config, some contents)
    | Except.error e => (Except.error e, some contents)

/-- The port the outbound transport binds: `osc::Sender::new(sender_rx,
send_port)` with `send_port = config.osc.send_port` (src/main.rs lines 217
and 234-235). -/
def outboundPort (c : Config) : Nat := c.osc.send_port

/-- The port the inbound transport binds: `osc::Receiver::new(receiver_tx,
receive_port)` with `receive_port = config.osc.receive_port` (src/main.rs
lines 218 and 237-238). -/
def inboundPort (c : Config) : Nat := c.osc.receive_port

/-! ## Activity monitor (`VrChatActivity`, src/main.rs lines 26-75) -/

/-- The body of `VrChatActivity::check` (src/main.rs lines 41-57) processing
a finite list of oracle samples, starting from the given value of the local
variable `vrchat_running` (initialized to `false` at line 37).  Returns the
events sent on the activity channel, in order: a sample is sent exactly when
it differs from `vrchat_running`, and `vrchat_running` is updated to the
sample just before sending. -/
def checkEventsFrom (vrchat_running : Bool) : List Bool → List Bool
  | [] => []
  | running :: rest =>
    if running ≠ vrchat_running then running :: checkEventsFrom running rest
    else checkEventsFrom vrchat_running rest

/-- The value of the local variable `vrchat_running` after `check` has
processed the given samples. -/
def checkStateFrom (vrchat_running : Bool) : List Bool → Bool
  | [] => vrchat_running
  | running :: rest =>
    if running ≠ vrchat_running then checkStateFrom running rest
    else checkStateFrom vrchat_running rest

/-- Events emitted by `check` over a sample list, from the initial state
`vrchat_running = false` (src/main.rs line 37). -/
def checkEvents (samples : List Bool) : List Bool :=
  checkEventsFrom false samples

/-- The last element of a list, or the default `d` when the list is empty. -/
def lastOr (d : Bool) : List Bool → Bool
  | [] => d
  | b :: l => lastOr b l

/-- The last value emitted on the activity channel after the given samples,
`false` (Stopped) when nothing has been emitted yet.  Defined from the
emitted events, not from the monitor's internal variable. -/
def lastEmitted (samples : List Bool) : Bool :=
  lastOr false (checkEvents samples)

/-- Outcome of one `VrChatActivity::run` execution (src/main.rs lines 60-74):
the events sent on the activity channel, how many times the process oracle
was sampled, whether the task parked on `on_shutdown_requested` after its
sends, and the value returned. -/
structure ActivityRunResult where
  sent : List Bool
  oracleSamples : Nat
  parkedUntilShutdown : Bool
  result : Except String Unit
deriving DecidableEq, Repr

/-- `VrChatActivity::run` (src/main.rs lines 60-74).  `oracle` is the finite
prefix of oracle samples observed before the enclosing shutdown cancels the
task.  When `disabled` (the `disable_activity_check` flag), the task sends a
single `true`, awaits shutdown, and returns `Ok` without ever touching the
oracle; otherwise it runs `check` under `cancel_on_shutdown`, which samples
the oracle each iteration and is eventually cancelled (`check` never returns
normally), so `run` returns `Ok`. -/
def activityRun (disabled : Bool) (oracle : List Bool) : ActivityRunResult :=
  if disabled then
    { sent := [true], oracleSamples := 0, parkedUntilShutdown := true,
      result := Except.ok () }
  else
    { sent := checkEvents oracle, oracleSamples := oracle.length,
      parkedUntilShutdown := false, result := Except.ok () }

/-! ## The run-under-cancellation wrapper (src/main.rs lines 67-71, 183-187) -/

/-- The outcome of `body().cancel_on_shutdown(&subsys).await`: either the
wrapped body completed with a `Result`, or the future was cancelled by a
requested shutdown (`Err(CancelledByShutdown)`). -/
inductive CancelOutcome (ε : Type) where
  | completed (r : Except ε Unit)
  | cancelledByShutdown
deriving DecidableEq, Repr

/-- What the wrapper does with the outcome: whether `subsys.request_shutdown`
is called, and the value the wrapping `run` returns. -/
structure WrapperResult (ε : Type) where
  shutdownRequested : Bool
  result : Except ε Unit
deriving DecidableEq, Repr

/-- The match shared verbatim by `VrChatActivity::run` (src/main.rs lines
67-71) and `Launcher::run` (lines 183-187): `Ok(Ok(()))` requests shutdown
and returns `Ok`; `Ok(Err(error))` returns the error; the cancellation
marker `Err(CancelledByShutdown)` is swallowed and `Ok` is returned. -/
def runUnderCancellation {ε : Type} (o : CancelOutcome ε) : WrapperResult ε :=
  match o with
  | CancelOutcome.completed (Except.ok ()) =>
    { shutdownRequested := true, result := Except.ok () }
  | CancelOutcome.completed (Except.error e) =>
    { shutdownRequested := false, result := Except.error e }
  | CancelOutcome.cancelledByShutdown =>
    { shutdownRequested := false, result := Except.ok () }

/-! ## Launcher event loop (`Launcher::wait`, src/main.rs lines 129-180) -/

/-- The handle to a started plugin group (`NestedSubsystem` returned by
`subsys.start("Plugins", ...)`), tagged with the configuration snapshot the
closure captured (`let config = self.config.clone()`), which is the snapshot
the group's plugin tasks receive. -/
structure GroupHandle where
  cfg : Config
deriving DecidableEq, Repr

/-- One externally visible action performed by the loop body, in program
order: re-reading the configuration file (`load_config().await`), updating
the tray icon (`tray.set_running(b)`), awaiting the shutdown of a plugin
group (`subsys.perform_partial_shutdown(g).await`, which completes only once
the group's tasks have exited), and starting a new plugin group
(`subsys.start("Plugins", ...)` with the captured snapshot). -/
inductive LAction where
  | loadConfig
  | traySet (running : Bool)
  | partialShutdown (g : GroupHandle)
  | startGroup (cfg : Config)
deriving DecidableEq, Repr

/-- `true` exactly on `LAction.partialShutdown`. -/
def LAction.isShutdown : LAction → Bool
  | LAction.partialShutdown _ => true
  | _ => false

/-- `true` exactly on `LAction.traySet`. -/
def LAction.isTraySet : LAction → Bool
  | LAction.traySet _ => true
  | _ => false

/-- The loop state of `Launcher::wait`: the current configuration snapshot
(`self.config`), `maybe_plugin_subsys`, and the running/stopped state last
written to the tray. -/
structure LauncherState where
  config : Config
  group : Option GroupHandle
  trayRunning : Bool
deriving DecidableEq, Repr

/-- One event consumed by the `select!` in `Launcher::wait`: a reload
request from the tray (carrying the result `load_config()` produces when the
branch re-reads the file) or an activity transition received from
`VrChatActivity`. -/
inductive LEvent where
  | reload (loaded : Except String Config)
  | activity (running : Bool)
deriving DecidableEq, Repr

/-- One iteration of the `select!` loop in `Launcher::wait` (src/main.rs
lines 134-177): the ordered trace of actions performed while handling the
event, and either the updated loop state or the error that makes `wait`
return.  Reload branch (lines 136-150): reload the config (`?` propagates a
load error), then, only if a group is present, await its partial shutdown
and start a new group with the new snapshot; the tray is not touched.
Activity branch (lines 151-172): on `true` with no group, set the tray to
running and start a group with the current snapshot; on `false` with a
group, set the tray to stopped, then await the group's partial shutdown and
clear the handle; otherwise do nothing. -/
def launcherStep (s : LauncherState) : LEvent → List LAction × Except String LauncherState
  | LEvent.reload loaded =>
    match loaded with
    | Except.error e => ([LAction.loadConfig], Except.error e)
    | Except.ok c =>
      match s.group with
      | some g =>
        ([LAction.loadConfig, LAction.partialShutdown g, LAction.startGroup c],
         Except.ok { s with config := c, group := some { cfg := c } })
      | none =>
        ([LAction.loadConfig], Except.ok { s with config := c })
  | LEvent.activity running =>
    if running then
      match s.group with
      | none =>
        ([LAction.traySet true, LAction.startGroup s.config],
         Except.ok { s with group := some { cfg := s.config }, trayRunning := true })
      | some _ => ([], Except.ok s)
    else
      match s.group with
      | some g =>
        ([LAction.traySet false, LAction.partialShutdown g],
         Except.ok { s with group := none, trayRunning := false })
      | none => ([], Except.ok s)

/-- The loop of `Launcher::wait` over a finite list of events: the
concatenated action trace and the final state, stopping at the first event
whose handling returns an error. -/
def launcherRun (s : LauncherState) : List LEvent → List LAction × Except String LauncherState
  | [] => ([], Except.ok s)
  | e :: es =>
    match launcherStep s e with
    | (tr, Except.error err) => (tr, Except.error err)
    | (tr, Except.ok s1) =>
      match launcherRun s1 es with
      | (tr2, r) => (tr ++ tr2, r)

/-! ## Live plugin-group counting over an action trace -/

/-- How an action changes the number of live plugin groups: a group becomes
live at `startGroup` and stops being live when its `partialShutdown`
completes. -/
def liveAfterAction (n : Nat) : LAction → Nat
  | LAction.startGroup _ => n + 1
  | LAction.partialShutdown _ => n - 1
  | LAction.loadConfig => n
  | LAction.traySet _ => n

/-- The number of live groups after a whole trace. -/
def liveEnd (n : Nat) (tr : List LAction) : Nat :=
  tr.foldl liveAfterAction n

/-- Every instantaneous live-group count along a trace, starting from `n`:
the count before the first action, between any two actions, and after the
last. -/
def liveStates (n : Nat) : List LAction → List Nat
  | [] => [n]
  | a :: tr => n :: liveStates (liveAfterAction n a) tr

/-- The number of live groups a launcher state accounts for: one when
`maybe_plugin_subsys` holds a handle, zero otherwise. -/
def groupCount (s : LauncherState) : Nat :=
  if s.group.isSome then 1 else 0

/-- "The group's full shutdown completes before the tray reports stopped",
read off an action trace: some completed `partialShutdown` occurs strictly
before some `traySet false`. -/
def shutdownPrecedesTrayStopped (tr : List LAction) : Prop :=
  ∃ i : Fin tr.length, ∃ j : Fin tr.length,
    i.val < j.val ∧ (tr.get i).isShutdown = true ∧ tr.get j = LAction.traySet false

/-- Whether a shutdown precedes the stopped-indicator update is decidable:
both positions range over the finite index set of the trace. -/
instance shutdownPrecedesTrayStoppedDec (tr : List LAction) :
    Decidable (shutdownPrecedesTrayStopped tr) := by
  unfold shutdownPrecedesTrayStopped
  infer_instance

/-- A fixed example state with no live group, used to instantiate
universally quantified theorems at concrete inputs. -/
def sampleState : LauncherState :=
  { config := Config.default, group := none, trayRunning := false }

/-- A fixed example state with a live group and the tray showing running,
used to instantiate universally quantified theorems at concrete inputs. -/
def runningState : LauncherState :=
  { config := Config.default, group := some { cfg := Config.default },
    trayRunning := true }

/-- A configuration different from the default, used as the content of a
reloaded snapshot in concrete instantiations. -/
def altConfig : Config :=
  { osc := { send_port := 9010, receive_port := 9011 } }

/-! ## Activity monitor lemmas -/

/-- Appending one element to a list makes it the last element. -/
theorem lastOr_concat : ∀ (l : List Bool) (d s : Bool), lastOr d (l ++ [s]) = s
  | [], _, _ => rfl
  | b :: l, _, s => lastOr_concat l b s

/-- The monitor's internal variable always equals the last value it emitted
(the initial value when nothing was emitted yet): the variable is updated
exactly when an event is sent, to the sent value. -/
theorem checkStateFrom_eq_lastOr :
    ∀ (samples : List Bool) (last : Bool),
      checkStateFrom last samples = lastOr last (checkEventsFrom last samples)
  | [], _ => rfl
  | running :: rest, last => by
    by_cases h : running = last
    · simpa [checkStateFrom, checkEventsFrom, h] using
        checkStateFrom_eq_lastOr rest last
    · simpa [checkStateFrom, checkEventsFrom, h, lastOr] using
        checkStateFrom_eq_lastOr rest running

/-- Processing one more sample appends exactly one event when the sample
differs from the monitor's current variable, and no event otherwise. -/
theorem checkEventsFrom_append :
    ∀ (xs : List Bool) (last s : Bool),
      checkEventsFrom last (xs ++ [s]) =
        checkEventsFrom last xs ++
          (if s ≠ checkStateFrom last xs then [s] else [])
  | [], last, s => by
    by_cases h : s = last <;> simp [checkEventsFrom, checkStateFrom, h]
  | x :: xs, last, s => by
    by_cases h : x = last
    · simpa [checkEventsFrom, checkStateFrom, h] using
        checkEventsFrom_append xs last s
    · simpa [checkEventsFrom, checkStateFrom, h] using
        checkEventsFrom_append xs x s

/-- C3: `VrChatActivity::check` is edge-triggered against the last *emitted*
value.  For every sample list, processing one further sample `s` emits an
event if and only if `s` differs from the last emitted value — which starts
out as `false` (Stopped) before the first observation — the emitted event is
`s` itself, repeated identical samples emit nothing, and an emission updates
the last-emitted value to the sample. -/
theorem check_edge_triggered_iff_differs_from_last_emitted
    (samples : List Bool) (s : Bool) :
    lastEmitted [] = false ∧
    checkEvents (samples ++ [s]) =
      checkEvents samples ++ (if s ≠ lastEmitted samples then [s] else []) ∧
    lastEmitted (samples ++ [s]) =
      (if s ≠ lastEmitted samples then s else lastEmitted samples) := by
  have hstate : checkStateFrom false samples = lastEmitted samples := by
    simpa [lastEmitted, checkEvents] using
      checkStateFrom_eq_lastOr samples false
  have happ : checkEvents (samples ++ [s]) =
      checkEvents samples ++ (if s ≠ lastEmitted samples then [s] else []) := by
    simpa [checkEvents, hstate] using checkEventsFrom_append samples false s
  refine ⟨rfl, happ, ?_⟩
  by_cases h : s = lastEmitted samples
  · have hsame : checkEvents (samples ++ [s]) = checkEvents samples := by
      rw [happ]; simp [h]
    calc lastEmitted (samples ++ [s])
        = lastOr false (checkEvents (samples ++ [s])) := rfl
      _ = lastOr false (checkEvents samples) := by rw [hsame]
      _ = lastEmitted samples := rfl
      _ = if s ≠ lastEmitted samples then s else lastEmitted samples := by
          simp [h]
  · have hnew : checkEvents (samples ++ [s]) = checkEvents samples ++ [s] := by
      rw [happ]; simp [h]
    calc lastEmitted (samples ++ [s])
        = lastOr false (checkEvents samples ++ [s]) := by
          rw [lastEmitted, hnew]
      _ = s := lastOr_concat _ _ _
      _ = if s ≠ lastEmitted samples then s else lastEmitted samples := by
          simp [h]

/-- C6 helper: a launcher that only ever receives `activity true` events
never awaits a group shutdown: no `perform_partial_shutdown` appears in its
trace. -/
theorem launcherRun_no_shutdown :
    ∀ (es : List LEvent) (s : LauncherState),
      (∀ e ∈ es, e = LEvent.activity true) →
      ∀ a ∈ (launcherRun s es).1, a.isShutdown = false
  | [], _, _, a, ha => by simp [launcherRun] at ha
  | e :: es, s, h, a, ha => by
    have he : e = LEvent.activity true := h e (List.mem_cons_self e es)
    subst he
    have hrest : ∀ e ∈ es, e = LEvent.activity true := fun e hme =>
      h e (List.mem_cons_of_mem _ hme)
    rcases hg : s.group with _ | g
    · simp [launcherRun, launcherStep, hg] at ha
      rcases ha with ha | ha | ha
      · subst ha; rfl
      · subst ha; rfl
      · exact launcherRun_no_shutdown es _ hrest a ha
    · simp [launcherRun, launcherStep, hg] at ha
      exact launcherRun_no_shutdown es _ hrest a ha

/-- C6: with `disable_activity_check` set, `VrChatActivity::run` sends
exactly one `Running` (`true`) event, samples the process oracle zero times,
parks until shutdown and returns `Ok` — independently of what the oracle
would have said — and a launcher fed only events drawn from that output
never performs an activity-driven group stop. -/
theorem activityRun_disabled_single_running_event (oracle : List Bool) :
    activityRun true oracle =
      { sent := [true], oracleSamples := 0, parkedUntilShutdown := true,
        result := Except.ok () } ∧
    ∀ (s : LauncherState) (es : List LEvent),
      (∀ e ∈ es, ∃ b ∈ (activityRun true oracle).sent, e = LEvent.activity b) →
      ∀ a ∈ (launcherRun s es).1, a.isShutdown = false := by
  refine ⟨rfl, fun s es h => launcherRun_no_shutdown es s ?_⟩
  intro e he
  rcases h e he with ⟨b, hb, rfl⟩
  simp [activityRun] at hb
  simp [hb]

/-- Witness for C6 at a concrete input: one `activity true` event, drawn
from the disabled monitor's output, yields a shutdown-free trace. -/
theorem activityRun_disabled_single_running_event_witness :
    (∀ e ∈ ([LEvent.activity true] : List LEvent),
      ∃ b ∈ (activityRun true []).sent, e = LEvent.activity b) ∧
    ∀ a ∈ (launcherRun sampleState [LEvent.activity true]).1,
      a.isShutdown = false :=
  ⟨by decide,
   (activityRun_disabled_single_running_event []).2 sampleState
     [LEvent.activity true] (by decide)⟩

/-! ## Configuration loading (C7, C9) -/

/-- Counterexample to C7 as stated: the claim puts the default 9000 on the
inbound port, but the default configuration that `load_config` synthesizes
and returns for an absent file has 9001 on the inbound (receive) port — the
receiver (`osc::Receiver`) binds `receive_port`, whose default is 9001, and
the sender (`osc::Sender`) binds `send_port`, whose default is 9000. -/
theorem load_config_default_inbound_is_not_9000 :
    (load_config (fun _ => "") (fun _ => Except.error "") none).1 =
      Except.ok Config.default ∧
    inboundPort Config.default = 9001 ∧
    ¬ inboundPort Config.default = 9000 := by
  decide

/-- C7 (amended): if the configuration file is absent, `load_config`
synthesizes the default configuration, persists its serialization to the
file before returning, and returns that default, in which the outbound
(send) port is 9000 and the inbound (receive) port is 9001. -/
theorem load_config_absent_persists_default
    (toStr : Config → String) (fromStr : String → Except String Config) :
    load_config toStr fromStr none =
      (Except.ok Config.default, some (toStr Config.default)) ∧
    outboundPort Config.default = 9000 ∧
    inboundPort Config.default = 9001 :=
  ⟨rfl, rfl, rfl⟩

/-- C9: when the configuration file exists, `load_config` returns exactly
what the parser makes of the existing content — an error when parsing fails —
and the file content after the call is the content before the call, parse
failure included: the read branch never writes. -/
theorem load_config_existing_file_unchanged
    (toStr : Config → String) (fromStr : String → Except String Config)
    (contents : String) :
    load_config toStr fromStr (some contents) = (fromStr contents, some contents) := by
  cases h : fromStr contents <;> simp [load_config, h]

/-! ## The run-under-cancellation wrapper (C8) -/

/-- C8: the wrapper distinguishes the three outcomes of the wrapped body.
Normal completion requests shutdown and returns `Ok`; cancellation by a
requested shutdown returns `Ok`, not an error; a genuine task error is
returned as the error; and the wrapper's result is an error precisely in the
third case. -/
theorem runUnderCancellation_three_outcomes {ε : Type} (o : CancelOutcome ε) :
    (o = CancelOutcome.completed (Except.ok ()) →
      runUnderCancellation o =
        { shutdownRequested := true, result := Except.ok () }) ∧
    (o = CancelOutcome.cancelledByShutdown →
      runUnderCancellation o =
        { shutdownRequested := false, result := Except.ok () }) ∧
    (∀ e, o = CancelOutcome.completed (Except.error e) →
      runUnderCancellation o =
        { shutdownRequested := false, result := Except.error e }) ∧
    ((∃ e, (runUnderCancellation o).result = Except.error e) ↔
      (∃ e, o = CancelOutcome.completed (Except.error e))) := by
  rcases o with r | _
  · rcases r with e | u
    · refine ⟨?_, ?_, ?_, ?_⟩
      · intro h
        cases h
      · intro h
        cases h
      · intro e' h
        cases h
        rfl
      · constructor
        · intro _
          exact ⟨e, rfl⟩
        · intro _
          exact ⟨e, rfl⟩
    · cases u
      refine ⟨?_, ?_, ?_, ?_⟩
      · intro _
        rfl
      · intro h
        cases h
      · intro e h
        cases h
      · constructor
        · rintro ⟨e, he⟩
          cases he
        · rintro ⟨e, he⟩
          cases he
  · refine ⟨?_, ?_, ?_, ?_⟩
    · intro h
      cases h
    · intro _
      rfl
    · intro e h
      cases h
    · constructor
      · rintro ⟨e, he⟩
        cases he
      · rintro ⟨e, he⟩
        cases he

/-- Witness for C8 at concrete outcomes over the error type `String`. -/
theorem runUnderCancellation_three_outcomes_witness :
    runUnderCancellation (CancelOutcome.completed (Except.ok ()) : CancelOutcome String) =
      { shutdownRequested := true, result := Except.ok () } ∧
    runUnderCancellation (CancelOutcome.cancelledByShutdown : CancelOutcome String) =
      { shutdownRequested := false, result := Except.ok () } ∧
    runUnderCancellation (CancelOutcome.completed (Except.error "watch task failed")) =
      { shutdownRequested := false, result := Except.error "watch task failed" } :=
  ⟨(runUnderCancellation_three_outcomes _).1 rfl,
   (runUnderCancellation_three_outcomes _).2.1 rfl,
   (runUnderCancellation_three_outcomes _).2.2.1 "watch task failed" rfl⟩

/-! ## Launcher reload handling (C2, C5, C10) -/

/-- C2: handling a reload event first re-reads the configuration and
replaces the snapshot (the new state's `config` is the freshly loaded one,
and `loadConfig` is the first action of the trace); then, exactly when a
group is present, it performs a stop-then-start cycle — the old group's
shutdown is awaited and a new group is started with the new snapshot — and
when no group is present it does nothing further.  The loaded configuration
`c` is arbitrary: the cycle happens even when `c` equals the previous
snapshot. -/
theorem launcher_reload_stop_then_start (s : LauncherState) (c : Config) :
    (∀ g, s.group = some g →
      launcherStep s (LEvent.reload (Except.ok c)) =
        ([LAction.loadConfig, LAction.partialShutdown g, LAction.startGroup c],
         Except.ok { s with config := c, group := some { cfg := c } })) ∧
    (s.group = none →
      launcherStep s (LEvent.reload (Except.ok c)) =
        ([LAction.loadConfig], Except.ok { s with config := c })) := by
  constructor
  · intro g hg
    simp [launcherStep, hg]
  · intro hg
    simp [launcherStep, hg]

/-- Witness for C2 at a concrete input: a reload that loads a configuration
byte-identical to the current one, with a group present, still produces the
stop-then-start trace. -/
theorem launcher_reload_stop_then_start_witness :
    runningState.group = some { cfg := Config.default } ∧
    launcherStep runningState (LEvent.reload (Except.ok Config.default)) =
      ([LAction.loadConfig, LAction.partialShutdown { cfg := Config.default },
        LAction.startGroup Config.default],
       Except.ok { config := Config.default,
                   group := some { cfg := Config.default },
                   trayRunning := true }) :=
  ⟨rfl,
   (launcher_reload_stop_then_start runningState Config.default).1
     { cfg := Config.default } rfl⟩

/-- C5: a reload arriving with no group present replaces the configuration
snapshot and does nothing else — the trace is just the configuration
re-read, so no plugin tasks are started and the group stays absent — and a
subsequent `activity true` event starts a group whose handle carries the
new snapshot `c`, not the pre-reload one. -/
theorem launcher_reload_then_activity_uses_new_config
    (s : LauncherState) (c : Config) (hg : s.group = none) :
    launcherStep s (LEvent.reload (Except.ok c)) =
      ([LAction.loadConfig], Except.ok { s with config := c }) ∧
    launcherStep { s with config := c } (LEvent.activity true) =
      ([LAction.traySet true, LAction.startGroup c],
       Except.ok { config := c, group := some { cfg := c },
                   trayRunning := true }) := by
  constructor
  · simp [launcherStep, hg]
  · simp [launcherStep, hg]

/-- Witness for C5 at a concrete input: reloading `altConfig` with no group
present, then receiving `activity true`, starts a group carrying
`altConfig`. -/
theorem launcher_reload_then_activity_uses_new_config_witness :
    sampleState.group = none ∧
    (launcherStep sampleState (LEvent.reload (Except.ok altConfig)) =
      ([LAction.loadConfig],
       Except.ok { sampleState with config := altConfig }) ∧
    launcherStep { sampleState with config := altConfig }
        (LEvent.activity true) =
      ([LAction.traySet true, LAction.startGroup altConfig],
       Except.ok { config := altConfig, group := some { cfg := altConfig },
                   trayRunning := true })) :=
  ⟨rfl, launcher_reload_then_activity_uses_new_config sampleState altConfig rfl⟩

/-- C10: handling a reload with a group present never touches the tray: no
`traySet` action appears anywhere in the trace — whatever `load_config`
returned — and when the handling succeeds the recorded tray state is
unchanged, so the indicator keeps reading whatever it read before
throughout the stop-then-start cycle. -/
theorem launcher_reload_never_updates_tray
    (s : LauncherState) (g : GroupHandle) (hg : s.group = some g)
    (r : Except String Config) :
    (∀ a ∈ (launcherStep s (LEvent.reload r)).1, a.isTraySet = false) ∧
    (∀ s1, (launcherStep s (LEvent.reload r)).2 = Except.ok s1 →
      s1.trayRunning = s.trayRunning) := by
  cases r with
  | error e =>
    constructor
    · intro a ha
      simp [launcherStep] at ha
      subst ha
      rfl
    · intro s1 h
      simp [launcherStep] at h
  | ok c =>
    constructor
    · intro a ha
      simp [launcherStep, hg] at ha
      rcases ha with ha | ha | ha <;> subst ha <;> rfl
    · intro s1 h
      simp [launcherStep, hg] at h
      subst h
      rfl

/-- Witness for C10 at a concrete input: reloading a different configuration
while a group is present leaves the tray untouched. -/
theorem launcher_reload_never_updates_tray_witness :
    runningState.group = some { cfg := Config.default } ∧
    ((∀ a ∈ (launcherStep runningState (LEvent.reload (Except.ok altConfig))).1,
        a.isTraySet = false) ∧
     (∀ s1, (launcherStep runningState (LEvent.reload (Except.ok altConfig))).2 =
          Except.ok s1 → s1.trayRunning = runningState.trayRunning)) :=
  ⟨rfl,
   launcher_reload_never_updates_tray runningState { cfg := Config.default } rfl
     (Except.ok altConfig)⟩

/-! ## Tray ordering on activity stop (C4) -/

/-- Counterexample to C4 as stated: on an `activity false` event with a
group present, the code calls `tray.set_running(false)` *before* awaiting
`perform_partial_shutdown` (src/main.rs lines 166-168), so in the action
trace no completed shutdown precedes the stopped-indicator update — the
claimed order "group fully stops before the indicator reports stopped" does
not hold. -/
theorem launcher_tray_stopped_before_shutdown_counterexample :
    (launcherStep runningState (LEvent.activity false)).1 =
      [LAction.traySet false, LAction.partialShutdown { cfg := Config.default }] ∧
    ¬ shutdownPrecedesTrayStopped
        (launcherStep runningState (LEvent.activity false)).1 := by
  decide

/-- C4 (amended): on an `activity false` event with a group present the
status indicator is set to stopped first and the group's shutdown is awaited
afterwards, both within the handling of that one event; and the indicator
never lags behind group presence across events — if the tray agreed with
group presence before an event, it agrees again once the event is fully
handled. -/
theorem launcher_tray_update_synchronous (s : LauncherState) :
    (∀ g, s.group = some g →
      (launcherStep s (LEvent.activity false)).1 =
        [LAction.traySet false, LAction.partialShutdown g]) ∧
    (s.trayRunning = s.group.isSome →
      ∀ e s1, (launcherStep s e).2 = Except.ok s1 →
        s1.trayRunning = s1.group.isSome) := by
  constructor
  · intro g hg
    simp [launcherStep, hg]
  · intro hsync e s1 h
    cases e with
    | reload r =>
      cases r with
      | error err => simp [launcherStep] at h
      | ok c =>
        rcases hg : s.group with _ | g
        · simp [launcherStep, hg] at h
          subst h
          simpa [hg] using hsync
        · simp [launcherStep, hg] at h
          subst h
          simp [hsync, hg]
    | activity running =>
      cases running with
      | false =>
        rcases hg : s.group with _ | g
        · simp [launcherStep, hg] at h
          subst h
          simpa [hg] using hsync
        · simp [launcherStep, hg] at h
          subst h
          simp
      | true =>
        rcases hg : s.group with _ | g
        · simp [launcherStep, hg] at h
          subst h
          simp
        · simp [launcherStep, hg] at h
          subst h
          simpa [hg] using hsync

/-- Witness for C4 (amended) at a concrete input: from a running state in
sync, handling `activity false` lands in a state that is again in sync. -/
theorem launcher_tray_update_synchronous_witness :
    runningState.group = some { cfg := Config.default } ∧
    (launcherStep runningState (LEvent.activity false)).1 =
      [LAction.traySet false, LAction.partialShutdown { cfg := Config.default }] ∧
    runningState.trayRunning = runningState.group.isSome ∧
    sampleState.trayRunning = sampleState.group.isSome :=
  ⟨rfl,
   (launcher_tray_update_synchronous runningState).1 { cfg := Config.default } rfl,
   rfl,
   (launcher_tray_update_synchronous runningState).2 rfl (LEvent.activity false)
     sampleState rfl⟩

/-! ## At most one live plugin group (C1) -/

/-- The instantaneous counts along a concatenated trace are found either
along the first part or along the second part started from the count the
first part ends with. -/
theorem mem_liveStates_append (t2 : List LAction) :
    ∀ (t1 : List LAction) (n m : Nat),
      m ∈ liveStates n (t1 ++ t2) →
      m ∈ liveStates n t1 ∨ m ∈ liveStates (liveEnd n t1) t2
  | [], n, m, h => Or.inr (by simpa [liveEnd] using h)
  | a :: t1, n, m, h => by
    simp only [List.cons_append, liveStates, List.mem_cons] at h
    rcases h with rfl | h
    · exact Or.inl (by simp [liveStates])
    · rcases mem_liveStates_append t2 t1 (liveAfterAction n a) m h with h1 | h1
      · exact Or.inl (by simp [liveStates, h1])
      · exact Or.inr h1

/-- Every launcher state accounts for at most one live group. -/
theorem groupCount_le_one (s : LauncherState) : groupCount s ≤ 1 := by
  unfold groupCount
  split <;> omega

/-- Handling one event never lets the instantaneous live-group count exceed
one: within the reload branch the old group's shutdown is awaited before the
new group is started, and within the activity branches a group is only
started when none is present and only stopped when one is. -/
theorem launcherStep_live_le_one (s : LauncherState) (e : LEvent) :
    ∀ m ∈ liveStates (groupCount s) (launcherStep s e).1, m ≤ 1 := by
  intro m hm
  cases e with
  | reload r =>
    cases r with
    | error err =>
      simp [launcherStep, liveStates, liveAfterAction] at hm
      rcases hm with rfl | rfl
      all_goals exact groupCount_le_one s
    | ok c =>
      rcases hg : s.group with _ | g
      · simp [launcherStep, hg, liveStates, liveAfterAction, groupCount] at hm
        rcases hm with rfl | rfl
        all_goals omega
      · simp [launcherStep, hg, liveStates, liveAfterAction, groupCount] at hm
        rcases hm with rfl | rfl | rfl | rfl
        all_goals omega
  | activity running =>
    cases running with
    | false =>
      rcases hg : s.group with _ | g
      · simp [launcherStep, hg, liveStates, groupCount] at hm
        subst hm
        omega
      · simp [launcherStep, hg, liveStates, liveAfterAction, groupCount] at hm
        rcases hm with rfl | rfl | rfl <;> omega
    | true =>
      rcases hg : s.group with _ | g
      · simp [launcherStep, hg, liveStates, liveAfterAction, groupCount] at hm
        rcases hm with rfl | rfl | rfl <;> omega
      · simp [launcherStep, hg, liveStates, groupCount] at hm
        subst hm
        omega

/-- When handling an event succeeds, the live count at the end of its trace
is the count the successor state accounts for. -/
theorem launcherStep_liveEnd (s : LauncherState) (e : LEvent)
    (s1 : LauncherState) (h : (launcherStep s e).2 = Except.ok s1) :
    liveEnd (groupCount s) (launcherStep s e).1 = groupCount s1 := by
  cases e with
  | reload r =>
    cases r with
    | error err => simp [launcherStep] at h
    | ok c =>
      rcases hg : s.group with _ | g
      · simp [launcherStep, hg] at h
        subst h
        simp [launcherStep, hg, liveEnd, liveAfterAction, groupCount]
      · simp [launcherStep, hg] at h
        subst h
        simp [launcherStep, hg, liveEnd, liveAfterAction, groupCount]
  | activity running =>
    cases running with
    | false =>
      rcases hg : s.group with _ | g
      · simp [launcherStep, hg] at h
        subst h
        simp [launcherStep, hg, liveEnd, groupCount]
      · simp [launcherStep, hg] at h
        subst h
        simp [launcherStep, hg, liveEnd, liveAfterAction, groupCount]
    | true =>
      rcases hg : s.group with _ | g
      · simp [launcherStep, hg] at h
        subst h
        simp [launcherStep, hg, liveEnd, liveAfterAction, groupCount]
      · simp [launcherStep, hg] at h
        subst h
        simp [launcherStep, hg, liveEnd, groupCount]

/-- C1: for every interleaving of activity and reload events processed by
the launcher loop, at most one plugin group is live at any instant — every
instantaneous live-group count along the full action trace, starting from
the count of the initial state, is at most one, so a group start never
overlaps an unconfirmed shutdown. -/
theorem launcher_at_most_one_live_group :
    ∀ (es : List LEvent) (s : LauncherState) (m : Nat),
      m ∈ liveStates (groupCount s) (launcherRun s es).1 → m ≤ 1
  | [], s, m, h => by
    simp [launcherRun, liveStates] at h
    subst h
    exact groupCount_le_one s
  | e :: es, s, m, h => by
    rcases hstep : launcherStep s e with ⟨tr, r⟩
    rcases r with err | s1
    · have htr : (launcherRun s (e :: es)).1 = tr := by
        simp [launcherRun, hstep]
      rw [htr] at h
      exact launcherStep_live_le_one s e m (by rw [hstep]; exact h)
    · have htr : (launcherRun s (e :: es)).1 = tr ++ (launcherRun s1 es).1 := by
        simp [launcherRun, hstep]
      rw [htr] at h
      rcases mem_liveStates_append (launcherRun s1 es).1 tr (groupCount s) m h
        with h1 | h1
      · exact launcherStep_live_le_one s e m (by rw [hstep]; exact h1)
      · have hend : liveEnd (groupCount s) tr = groupCount s1 := by
          have := launcherStep_liveEnd s e s1 (by rw [hstep])
          rwa [hstep] at this
        rw [hend] at h1
        exact launcher_at_most_one_live_group es s1 m h1

/-- Witness for C1 at a concrete input: a start, a reload restart and a stop
in sequence, with the count 1 observed along the trace, all counts bounded
by one. -/
theorem launcher_at_most_one_live_group_witness :
    (1 : Nat) ∈ liveStates (groupCount sampleState)
      (launcherRun sampleState
        [LEvent.activity true, LEvent.reload (Except.ok altConfig),
         LEvent.activity false]).1 ∧ (1 : Nat) ≤ 1 :=
  ⟨by decide,
   launcher_at_most_one_live_group
     [LEvent.activity true, LEvent.reload (Except.ok altConfig),
      LEvent.activity false] sampleState 1 (by decide)⟩
